import Mathlib

/-!
Shallow embedding of `server.py` (Volkswagen Consortium API).

MongoDB collections are modelled as lists of documents in insertion order
(`insert_one` appends).  `update_one(filter, {"$set": ...})` is modelled by
`updateOne`, which rewrites the first document matching the filter and
returns Mongo's `modified_count`: `0` when no document matched *or* when the
`$set` left the matched document unchanged, `1` otherwise.
`find().sort(key, -1).to_list(n)` is modelled by a stable descending
insertion sort followed by `List.take n`.  Fresh UUIDs and the current
timestamp are passed to the handlers as explicit parameters; the reachability
relation `Reachable` constrains the UUID handed to `create_lead` to be fresh.
Handlers that can raise `HTTPException` return `Except Nat String` (the
`Nat` is the HTTP status code) together with the post-state of the database.
-/

/-- Request body of `POST /leads` (Pydantic model `LeadCreate`). -/
structure LeadCreate where
  name : String
  whatsapp : String
  city : String
  model : String
  source : String := "hero-form"
deriving DecidableEq, Repr

/-- Document of the `leads` collection (Pydantic model `Lead`);
`created_at` is a UTC timestamp modelled as a `Nat`. -/
structure Lead where
  id : String
  name : String
  whatsapp : String
  city : String
  model : String
  source : String := "hero-form"
  status : String := "new"
  created_at : Nat
deriving DecidableEq, Repr

/-- Document of the `cars` collection (Pydantic model `Car`). -/
structure Car where
  id : String
  name : String
  model : String
  year : Nat
  image : String
  monthly_price : String
  total_credit : String
  installments : Nat
  highlights : List String
  description : String
  is_active : Bool := true
deriving DecidableEq, Repr

/-- Document of the `testimonials` collection (Pydantic model `Testimonial`). -/
structure Testimonial where
  id : String
  name : String
  city : String
  car : String
  image : String
  testimonial : String
  rating : Nat
  contemplated : Bool
  months_to_contemplate : Nat
  is_active : Bool := true
deriving DecidableEq, Repr

/-- Document of the `blog_posts` collection (Pydantic model `BlogPost`);
`published_at` is a timestamp modelled as a `Nat`. -/
structure BlogPost where
  id : String
  title : String
  excerpt : String
  slug : String
  category : String
  read_time : String
  published_at : Nat
  content : String := ""
  is_published : Bool := true
deriving DecidableEq, Repr

/-- Mongo's `update_one(filter, {"$set": ...})`: rewrite the first document
matching `filt` with `f` and return the new collection together with
`modified_count` (0 when nothing matched or the rewrite changed nothing). -/
def updateOne {α : Type} [DecidableEq α] (filt : α → Bool) (f : α → α) :
    List α → List α × Nat
  | [] => ([], 0)
  | d :: ds =>
    if filt d then
      (f d :: ds, if f d = d then 0 else 1)
    else
      let r := updateOne filt f ds
      (d :: r.1, r.2)

/-- One step of the descending insertion sort modelling `.sort(key, -1)`. -/
def insertByDesc {α : Type} (key : α → Nat) (x : α) : List α → List α
  | [] => [x]
  | y :: ys => if key y ≤ key x then x :: y :: ys else y :: insertByDesc key x ys

/-- Stable sort in descending `key` order, modelling Mongo `.sort(key, -1)`. -/
def sortByDesc {α : Type} (key : α → Nat) (l : List α) : List α :=
  l.foldr (insertByDesc key) []

/-- The document store: one list per collection touched by the modelled
endpoints (the analytics and legacy status collections are never read by
the endpoints under verification and are omitted). -/
structure DB where
  leads : List Lead
  cars : List Car
  testimonials : List Testimonial
  blog_posts : List BlogPost
deriving DecidableEq, Repr

/-- The empty database. -/
def db_empty : DB := ⟨[], [], [], []⟩

/-- Handler of `POST /leads`: build a `Lead` from the submitted fields with a fresh
uuid `fid`, status `"new"` and the current timestamp `now`, insert it, and
return it.  (The insert is acknowledged in the model, so the 400 branch of
the source is unreachable here.) -/
def create_lead (lead_data : LeadCreate) (fid : String) (now : Nat) (db : DB) :
    Lead × DB :=
  let lead_obj : Lead :=
    { id := fid, name := lead_data.name, whatsapp := lead_data.whatsapp,
      city := lead_data.city, model := lead_data.model,
      source := lead_data.source, status := "new", created_at := now }
  (lead_obj, { db with leads := db.leads ++ [lead_obj] })

/-- Handler of `GET /leads`: `db.leads.find().sort("created_at", -1).to_list(1000)`. -/
def get_leads (db : DB) : List Lead :=
  (sortByDesc Lead.created_at db.leads).take 1000

/-- Response shape of `GET /leads/stats`. -/
structure LeadStats where
  total : Nat
  new : Nat
  contacted : Nat
  converted : Nat
  by_source : List (String × Nat)
deriving DecidableEq, Repr

/-- Handler of `GET /leads/stats`: total count, counts of the three known statuses, and
the `$group`-by-source aggregation — one pair per distinct source value,
truncated to the first 100 groups by the source's
`db.leads.aggregate(pipeline).to_list(100)`. -/
def get_lead_stats (db : DB) : LeadStats :=
  { total := db.leads.length,
    new := db.leads.countP (fun l => l.status == "new"),
    contacted := db.leads.countP (fun l => l.status == "contacted"),
    converted := db.leads.countP (fun l => l.status == "converted"),
    by_source := ((db.leads.map Lead.source).dedup.map
      (fun s => (s, db.leads.countP (fun l => l.source == s)))).take 100 }

/-- Handler of `PUT /leads/{lead_id}?status=...`: `$set` the status on the first lead
whose `id` matches; 404 when `modified_count` is zero. -/
def update_lead_status (lead_id : String) (status : String) (db : DB) :
    Except Nat String × DB :=
  let r := updateOne (fun l => l.id == lead_id)
    (fun l => { l with status := status }) db.leads
  let db' : DB := { db with leads := r.1 }
  if r.2 ≠ 0 then (Except.ok "Lead updated successfully", db')
  else (Except.error 404, db')

/-- Handler of `GET /cars`: `db.cars.find({"is_active": True}).to_list(100)`. -/
def get_cars (db : DB) : List Car :=
  (db.cars.filter (fun c => c.is_active)).take 100

/-- Handler of `POST /cars`: insert the client-supplied `Car` document as given
(the `id` field comes from the payload; no uniqueness check). -/
def create_car (car_data : Car) (db : DB) : Car × DB :=
  (car_data, { db with cars := db.cars ++ [car_data] })

/-- Handler of `PUT /cars/{car_id}`: `$set` every field of the payload on the first car
whose `id` matches; 404 when `modified_count` is zero. -/
def update_car (car_id : String) (car_data : Car) (db : DB) :
    Except Nat String × DB :=
  let r := updateOne (fun c => c.id == car_id) (fun _ => car_data) db.cars
  let db' : DB := { db with cars := r.1 }
  if r.2 ≠ 0 then (Except.ok "Car updated successfully", db')
  else (Except.error 404, db')

/-- Handler of `DELETE /cars/{car_id}`: soft delete, `$set is_active = False` on the
first car whose `id` matches; 404 when `modified_count` is zero. -/
def delete_car (car_id : String) (db : DB) : Except Nat String × DB :=
  let r := updateOne (fun c => c.id == car_id)
    (fun c => { c with is_active := false }) db.cars
  let db' : DB := { db with cars := r.1 }
  if r.2 ≠ 0 then (Except.ok "Car deleted successfully", db')
  else (Except.error 404, db')

/-- Handler of `GET /testimonials`: active testimonials, capped at 100. -/
def get_testimonials (db : DB) : List Testimonial :=
  (db.testimonials.filter (fun t => t.is_active)).take 100

/-- Handler of `POST /testimonials`: insert the client-supplied document as given. -/
def create_testimonial (testimonial_data : Testimonial) (db : DB) :
    Testimonial × DB :=
  (testimonial_data, { db with testimonials := db.testimonials ++ [testimonial_data] })

/-- Handler of `PUT /testimonials/{testimonial_id}`: full-payload `$set` on the first
matching testimonial; 404 when `modified_count` is zero. -/
def update_testimonial (testimonial_id : String) (testimonial_data : Testimonial)
    (db : DB) : Except Nat String × DB :=
  let r := updateOne (fun t => t.id == testimonial_id)
    (fun _ => testimonial_data) db.testimonials
  let db' : DB := { db with testimonials := r.1 }
  if r.2 ≠ 0 then (Except.ok "Testimonial updated successfully", db')
  else (Except.error 404, db')

/-- Handler of `GET /blog/posts`: published posts, newest first, capped at 100. -/
def get_blog_posts (db : DB) : List BlogPost :=
  (sortByDesc BlogPost.published_at
    (db.blog_posts.filter (fun p => p.is_published))).take 100

/-- Handler of `GET /blog/posts/{slug}`: `find_one({"slug": slug, "is_published": True})`;
404 when no document matches both conditions. -/
def get_blog_post_by_slug (slug : String) (db : DB) : Except Nat BlogPost :=
  match db.blog_posts.find? (fun p => p.slug == slug && p.is_published) with
  | some p => Except.ok p
  | none => Except.error 404

/-- Handler of `POST /blog/posts`: insert the client-supplied document as given. -/
def create_blog_post (post_data : BlogPost) (db : DB) : BlogPost × DB :=
  (post_data, { db with blog_posts := db.blog_posts ++ [post_data] })

/-- Handler of `PUT /blog/posts/{post_id}`: full-payload `$set` on the first matching
post; 404 when `modified_count` is zero. -/
def update_blog_post (post_id : String) (post_data : BlogPost) (db : DB) :
    Except Nat String × DB :=
  let r := updateOne (fun p => p.id == post_id) (fun _ => post_data) db.blog_posts
  let db' : DB := { db with blog_posts := r.1 }
  if r.2 ≠ 0 then (Except.ok "Blog post updated successfully", db')
  else (Except.error 404, db')

/-- Timestamp encoding for the seed data's `datetime(y, m, d)` values:
any order-preserving encoding of the date works, none of the verified
properties depends on the unit. -/
def dateYMD (y m d : Nat) : Nat := y * 10000 + m * 100 + d

/-- Seed cars inserted by `populate_initial_data` (field values copied from
`initial_cars` in the source; the long image URLs abbreviated to their
distinguishing photo ids, which no verified property inspects). -/
def initial_cars : List Car :=
  [ { id := "golf-gti-2025", name := "Golf GTI 2025", model := "Golf GTI",
      year := 2025, image := "https://images.unsplash.com/photo-1574581501439-6405a98bd76c",
      monthly_price := "R$ 1.247", total_credit := "R$ 89.000", installments := 60,
      highlights := ["Motor 2.0 TSI", "250cv de potência", "Tração dianteira"],
      description := "O Golf GTI é a versão esportiva mais desejada do segmento premium.",
      is_active := true },
    { id := "polo-track-2025", name := "Polo Track", model := "Polo Track",
      year := 2025, image := "https://images.unsplash.com/photo-1630485074308-ff80bde93658",
      monthly_price := "R$ 847", total_credit := "R$ 65.000", installments := 60,
      highlights := ["Motor 1.0 TSI", "Design arrojado", "Tecnologia avançada"],
      description := "O Polo Track combina esportividade e economia para o dia a dia.",
      is_active := true },
    { id := "t-cross-2025", name := "T-Cross", model := "T-Cross",
      year := 2025, image := "https://images.unsplash.com/photo-1692377789658-e37e26cc2db7",
      monthly_price := "R$ 987", total_credit := "R$ 78.000", installments := 60,
      highlights := ["SUV compacto", "Espaço interno", "Posição elevada"],
      description := "O T-Cross é o SUV perfeito para quem busca versatilidade e conforto.",
      is_active := true },
    { id := "nivus-2025", name := "Nivus", model := "Nivus",
      year := 2025, image := "https://images.unsplash.com/photo-1705229810194-dd78431dcb78",
      monthly_price := "R$ 897", total_credit := "R$ 72.000", installments := 60,
      highlights := ["SUV Coupé", "Design único", "Eficiência energética"],
      description := "O Nivus representa a nova era dos SUVs coupé da Volkswagen.",
      is_active := true } ]

/-- Seed testimonials inserted by `populate_initial_data`. -/
def initial_testimonials : List Testimonial :=
  [ { id := "testimonial-1", name := "Maria Silva", city := "Belém, PA",
      car := "T-Cross 2024",
      image := "https://images.unsplash.com/photo-1494790108755-2616c6d58a37",
      testimonial := "Achei que era impossível ter meu carro sem entrada... hoje tenho meu T-Cross sem pagar juros! O Ismael me ajudou em todo o processo.",
      rating := 5, contemplated := true, months_to_contemplate := 8,
      is_active := true },
    { id := "testimonial-2", name := "João Santos", city := "Ananindeua, PA",
      car := "Golf GTI 2024",
      image := "https://images.unsplash.com/photo-1472099645785-5658abf4ff4e",
      testimonial := "Sempre sonhei com um Golf GTI. Com o consórcio consegui realizar esse sonho sem comprometer minha renda. Recomendo!",
      rating := 5, contemplated := true, months_to_contemplate := 12,
      is_active := true },
    { id := "testimonial-3", name := "Ana Oliveira", city := "Castanhal, PA",
      car := "Polo Track 2024",
      image := "https://images.unsplash.com/photo-1438761681033-6461ffad8d80",
      testimonial := "Excelente atendimento! Consegui meu Polo Track em apenas 6 meses. O processo foi super transparente e sem pegadinhas.",
      rating := 5, contemplated := true, months_to_contemplate := 6,
      is_active := true } ]

/-- Seed blog posts inserted by `populate_initial_data`. -/
def initial_blog_posts : List BlogPost :=
  [ { id := "blog-1",
      title := "5 motivos para escolher consórcio em vez de financiamento",
      excerpt := "Descubra por que o consórcio é uma opção mais inteligente que o financiamento tradicional...",
      slug := "consorcio-vs-financiamento", category := "Educativo",
      read_time := "5 min", published_at := dateYMD 2025 1 15,
      content := "Conteúdo completo do artigo sobre consórcio vs financiamento...",
      is_published := true },
    { id := "blog-2",
      title := "Como ser contemplado mais rápido no consórcio",
      excerpt := "Estratégias comprovadas para aumentar suas chances de contemplação antecipada...",
      slug := "contemplacao-rapida-consorcio", category := "Dicas",
      read_time := "7 min", published_at := dateYMD 2025 1 12,
      content := "Conteúdo completo sobre contemplação rápida...",
      is_published := true },
    { id := "blog-3",
      title := "Diferença entre carta de crédito e financiamento",
      excerpt := "Entenda as principais diferenças e qual opção é melhor para seu perfil...",
      slug := "carta-credito-vs-financiamento", category := "Comparativo",
      read_time := "4 min", published_at := dateYMD 2025 1 10,
      content := "Conteúdo completo sobre carta de crédito vs financiamento...",
      is_published := true } ]

/-- Body of `populate_initial_data`: `insert_many` the three seed lists. -/
def populate_initial_data (db : DB) : DB :=
  { db with cars := db.cars ++ initial_cars,
            testimonials := db.testimonials ++ initial_testimonials,
            blog_posts := db.blog_posts ++ initial_blog_posts }

/-- Startup hook: populate the seed data exactly when
`db.cars.count_documents({}) == 0`. -/
def startup_event (db : DB) : DB :=
  if db.cars.length == 0 then populate_initial_data db else db

/-- Database states reachable through the modelled API operations.  The uuid
handed to `create_lead` is server-generated, so it is constrained to be fresh
for the leads collection; the ids of cars, testimonials and blog posts come
from the client payload and carry no constraint, exactly as in the source. -/
inductive Reachable : DB → Prop where
  | init : Reachable db_empty
  | startup {db : DB} : Reachable db → Reachable (startup_event db)
  | lead_created {db : DB} (input : LeadCreate) (fid : String) (now : Nat)
      (hfresh : fid ∉ db.leads.map Lead.id) :
      Reachable db → Reachable (create_lead input fid now db).2
  | lead_status_updated {db : DB} (lead_id status : String) :
      Reachable db → Reachable (update_lead_status lead_id status db).2
  | car_created {db : DB} (car_data : Car) :
      Reachable db → Reachable (create_car car_data db).2
  | car_updated {db : DB} (car_id : String) (car_data : Car) :
      Reachable db → Reachable (update_car car_id car_data db).2
  | car_deleted {db : DB} (car_id : String) :
      Reachable db → Reachable (delete_car car_id db).2
  | testimonial_created {db : DB} (testimonial_data : Testimonial) :
      Reachable db → Reachable (create_testimonial testimonial_data db).2
  | testimonial_updated {db : DB} (testimonial_id : String)
      (testimonial_data : Testimonial) :
      Reachable db → Reachable (update_testimonial testimonial_id testimonial_data db).2
  | blog_post_created {db : DB} (post_data : BlogPost) :
      Reachable db → Reachable (create_blog_post post_data db).2
  | blog_post_updated {db : DB} (post_id : String) (post_data : BlogPost) :
      Reachable db → Reachable (update_blog_post post_id post_data db).2

/-- A concrete form submission. -/
def formA : LeadCreate :=
  { name := "Ana Oliveira", whatsapp := "(91) 99876-5432", city := "Belém",
    model := "Golf GTI", source := "hero-form" }

/-- A second concrete form submission, from another source. -/
def formB : LeadCreate :=
  { name := "João Santos", whatsapp := "(91) 98888-0000", city := "Ananindeua",
    model := "Polo Track", source := "site-form" }

/-- State after one lead creation. -/
def dbOneLead : DB := (create_lead formA "lead-a" 5 db_empty).2

/-- State after a second lead creation (later timestamp, different source). -/
def dbTwoLeads : DB := (create_lead formB "lead-b" 9 dbOneLead).2

/-- State in which the only lead's status was set to a value outside the
new/contacted/converted enumeration through the update endpoint. -/
def dbOutside : DB := (update_lead_status "lead-a" "perdido" dbOneLead).2

/-- One lead among many, used to exercise the `to_list(1000)` cap. -/
def bulkLead (i : Nat) : Lead :=
  { id := toString i, name := "Lote", whatsapp := "(91) 90000-0000",
    city := "Belém", model := "Nivus", source := "hero-form", status := "new",
    created_at := i }

/-- State holding 1001 leads. -/
def dbBulk : DB :=
  { leads := (List.range 1001).map bulkLead, cars := [], testimonials := [],
    blog_posts := [] }

/-- A concrete car payload (id supplied by the client). -/
def carA : Car :=
  { id := "car-a", name := "Virtus", model := "Virtus", year := 2025,
    image := "https://images.example/virtus", monthly_price := "R$ 999",
    total_credit := "R$ 80.000", installments := 60,
    highlights := ["Sedã"], description := "Sedã compacto.", is_active := true }

/-- The same car id with a different name, used as an update payload. -/
def carA2 : Car := { carA with name := "Virtus Exclusive" }

/-- State after one car creation. -/
def dbOneCar : DB := (create_car carA db_empty).2

/-- State after posting the same car payload twice. -/
def dbDupCars : DB := (create_car carA dbOneCar).2

/-- A concrete testimonial payload. -/
def testA : Testimonial :=
  { id := "dep-a", name := "Rita Lima", city := "Marituba, PA", car := "Nivus",
    image := "https://images.example/rita", testimonial := "Processo simples.",
    rating := 5, contemplated := false, months_to_contemplate := 0,
    is_active := true }

/-- The same testimonial id with a different rating, used as an update payload. -/
def testA2 : Testimonial := { testA with rating := 4 }

/-- A concrete blog post payload. -/
def postA : BlogPost :=
  { id := "post-a", title := "Guia do consórcio", excerpt := "Resumo...",
    slug := "guia-do-consorcio", category := "Educativo", read_time := "3 min",
    published_at := dateYMD 2025 2 1, content := "Texto...",
    is_published := true }

/-- The same blog post id with a different category, used as an update payload. -/
def postA2 : BlogPost := { postA with category := "Dicas" }

/-- A catalog state holding one car, one testimonial and one blog post. -/
def dbCatalog : DB :=
  { leads := [], cars := [carA], testimonials := [testA], blog_posts := [postA] }

/-- The same blog post, unpublished. -/
def postUnpub : BlogPost := { postA with is_published := false }

/-- State whose only blog post is unpublished. -/
def dbUnpub : DB :=
  { leads := [], cars := [], testimonials := [], blog_posts := [postUnpub] }

/-- When no document matches the filter, `update_one` leaves the collection
unchanged and reports `modified_count = 0`. -/
theorem updateOne_no_match {α : Type} [DecidableEq α] (filt : α → Bool) (f : α → α)
    (l : List α) (h : ∀ x ∈ l, ¬ filt x) : updateOne filt f l = (l, 0) := by
  induction l with
  | nil => rfl
  | cons d ds ih =>
      have hd : ¬ filt d := h d (List.mem_cons_self d ds)
      simp [updateOne, hd, ih (fun x hx => h x (List.mem_cons_of_mem d hx))]

/-- Evaluation of `update_one` on a collection split at its first match. -/
theorem updateOne_split {α : Type} [DecidableEq α] (filt : α → Bool) (f : α → α)
    (pre : List α) (x : α) (post : List α)
    (hpre : ∀ y ∈ pre, ¬ filt y) (hx : filt x) :
    updateOne filt f (pre ++ x :: post) =
      (pre ++ f x :: post, if f x = x then 0 else 1) := by
  induction pre with
  | nil => simp [updateOne, hx]
  | cons y ys ih =>
      have hy : ¬ filt y := hpre y (List.mem_cons_self y ys)
      simp [updateOne, hy, ih (fun z hz => hpre z (List.mem_cons_of_mem y hz))]

/-- A nonzero `modified_count` exhibits the first match: the collection splits
into an unmatched prefix, the rewritten document (actually changed by the
rewrite) and an untouched suffix. -/
theorem updateOne_success_split {α : Type} [DecidableEq α] (filt : α → Bool)
    (f : α → α) (l : List α) (h : (updateOne filt f l).2 ≠ 0) :
    ∃ pre x post, l = pre ++ x :: post ∧ (∀ y ∈ pre, ¬ filt y) ∧ filt x ∧
      f x ≠ x ∧ (updateOne filt f l).1 = pre ++ f x :: post := by
  induction l with
  | nil => simp [updateOne] at h
  | cons d ds ih =>
      by_cases hd : filt d
      · have hne : f d ≠ d := by
          intro heq
          apply h
          simp [updateOne, hd, heq]
        refine ⟨[], d, ds, rfl, by simp, hd, hne, ?_⟩
        simp [updateOne, hd]
      · have h' : (updateOne filt f ds).2 ≠ 0 := by
          intro h0
          apply h
          simp [updateOne, hd, h0]
        obtain ⟨pre, x, post, hsplit, hpre, hx, hne, hfst⟩ := ih h'
        refine ⟨d :: pre, x, post, by rw [hsplit]; rfl, ?_, hx, hne, ?_⟩
        · intro y hy
          rcases List.mem_cons.mp hy with rfl | hy'
          · exact hd
          · exact hpre y hy'
        · simp [updateOne, hd, hfst]

/-- A zero `modified_count` means `update_one` left the collection unchanged. -/
theorem updateOne_fst_of_zero {α : Type} [DecidableEq α] (filt : α → Bool)
    (f : α → α) (l : List α) (h : (updateOne filt f l).2 = 0) :
    (updateOne filt f l).1 = l := by
  induction l with
  | nil => rfl
  | cons d ds ih =>
      by_cases hd : filt d
      · have : f d = d := by
          by_contra hne
          simp [updateOne, hd, hne] at h
        simp [updateOne, hd, this]
      · have h' : (updateOne filt f ds).2 = 0 := by
          simpa [updateOne, hd] using h
        simp [updateOne, hd, ih h']

/-- When at most one document matches the filter, `modified_count` is zero
exactly when every match is left unchanged by the rewrite. -/
theorem updateOne_zero_iff_of_unique {α : Type} [DecidableEq α] (filt : α → Bool)
    (f : α → α) (l : List α) (hu : l.countP filt ≤ 1) :
    (updateOne filt f l).2 = 0 ↔ ∀ x ∈ l, filt x → f x = x := by
  induction l with
  | nil => simp [updateOne]
  | cons d ds ih =>
      by_cases hd : filt d
      · have hds : ds.countP filt = 0 := by
          rw [List.countP_cons_of_pos _ _ hd] at hu
          omega
        have hnone : ∀ x ∈ ds, ¬ filt x := List.countP_eq_zero.mp hds
        constructor
        · intro h0 x hx hfx
          rcases List.mem_cons.mp hx with rfl | hx'
          · by_contra hne
            simp [updateOne, hd, hne] at h0
          · exact absurd hfx (hnone x hx')
        · intro hall
          have : f d = d := hall d (List.mem_cons_self d ds) hd
          simp [updateOne, hd, this]
      · have hu' : ds.countP filt ≤ 1 := by
          rw [List.countP_cons_of_neg _ _ hd] at hu
          exact hu
        rw [show (updateOne filt f (d :: ds)).2 = (updateOne filt f ds).2 by
              simp [updateOne, hd]]
        rw [ih hu']
        constructor
        · intro hall x hx hfx
          rcases List.mem_cons.mp hx with rfl | hx'
          · exact absurd hfx hd
          · exact hall x hx' hfx
        · intro hall x hx hfx
          exact hall x (List.mem_cons_of_mem d hx) hfx

/-- A rewrite that preserves the projection `g` (e.g. `$set` on a field other
than `id`) preserves the `g`-image of the collection. -/
theorem map_updateOne_fst {α β : Type} [DecidableEq α] (filt : α → Bool)
    (f : α → α) (g : α → β) (hg : ∀ x, g (f x) = g x) (l : List α) :
    ((updateOne filt f l).1).map g = l.map g := by
  induction l with
  | nil => rfl
  | cons d ds ih =>
      by_cases hd : filt d
      · simp [updateOne, hd, hg]
      · simp [updateOne, hd, ih]

/-- Inserting one element is a permutation of consing it. -/
theorem perm_insertByDesc {α : Type} (key : α → Nat) (x : α) (l : List α) :
    List.Perm (insertByDesc key x l) (x :: l) := by
  induction l with
  | nil => rfl
  | cons y ys ih =>
      by_cases h : key y ≤ key x
      · simp [insertByDesc, h]
      · rw [insertByDesc, if_neg h]
        exact (ih.cons y).trans (List.Perm.swap x y ys)

/-- The descending sort is a permutation of its input. -/
theorem perm_sortByDesc {α : Type} (key : α → Nat) (l : List α) :
    List.Perm (sortByDesc key l) l := by
  induction l with
  | nil => rfl
  | cons x xs ih =>
      exact (perm_insertByDesc key x (sortByDesc key xs)).trans (ih.cons x)

/-- Inserting into a descending-sorted list keeps it descending-sorted. -/
theorem pairwise_insertByDesc {α : Type} (key : α → Nat) (x : α) (l : List α)
    (h : l.Pairwise (fun a b => key b ≤ key a)) :
    (insertByDesc key x l).Pairwise (fun a b => key b ≤ key a) := by
  induction l with
  | nil => simp [insertByDesc]
  | cons y ys ih =>
      rw [List.pairwise_cons] at h
      by_cases hxy : key y ≤ key x
      · rw [insertByDesc, if_pos hxy]
        refine List.pairwise_cons.mpr ⟨?_, List.pairwise_cons.mpr ⟨h.1, h.2⟩⟩
        intro b hb
        rcases List.mem_cons.mp hb with rfl | hb'
        · exact hxy
        · exact le_trans (h.1 b hb') hxy
      · rw [insertByDesc, if_neg hxy]
        refine List.pairwise_cons.mpr ⟨?_, ih h.2⟩
        intro b hb
        rcases List.mem_cons.mp ((perm_insertByDesc key x ys).mem_iff.mp hb) with rfl | hb'
        · exact Nat.le_of_lt (Nat.lt_of_not_le hxy)
        · exact h.1 b hb'

/-- The descending sort is descending-sorted. -/
theorem pairwise_sortByDesc {α : Type} (key : α → Nat) (l : List α) :
    (sortByDesc key l).Pairwise (fun a b => key b ≤ key a) := by
  induction l with
  | nil => simp [sortByDesc]
  | cons x xs ih => exact pairwise_insertByDesc key x (sortByDesc key xs) ih

/-- The `$group`-by-source counts sum to the size of the collection: every
lead carries exactly one source value. -/
theorem by_source_sum (l : List Lead) :
    (((l.map Lead.source).dedup.map
        (fun s => (s, l.countP (fun x => x.source == s)))).map Prod.snd).sum
      = l.length := by
  rw [List.map_map]
  have hfun : (Prod.snd ∘ fun s => (s, l.countP (fun x => x.source == s)))
      = fun s => (l.map Lead.source).count s := by
    funext s
    simp only [Function.comp]
    rw [List.count_eq_countP, List.countP_map]
    rfl
  rw [hfun, show l.length = (l.map Lead.source).length from (List.length_map l Lead.source).symm]
  exact (l.map Lead.source).sum_map_count_dedup_eq_length

/-- When every lead's status is one of the three enumerated values, the
status counts partition the collection. -/
theorem length_status_partition (l : List Lead)
    (h : ∀ x ∈ l, x.status = "new" ∨ x.status = "contacted" ∨ x.status = "converted") :
    l.length = l.countP (fun x => x.status == "new")
      + l.countP (fun x => x.status == "contacted")
      + l.countP (fun x => x.status == "converted") := by
  induction l with
  | nil => rfl
  | cons x xs ih =>
      have hx := h x (List.mem_cons_self x xs)
      have ih' := ih fun y hy => h y (List.mem_cons_of_mem x hy)
      rcases hx with hs | hs | hs <;>
        · simp [List.countP_cons, hs, ih']
          omega

/-- Setting the status field is the identity exactly when the status already
has that value. -/
theorem lead_set_status_eq (x : Lead) (s : String) :
    ({ x with status := s } = x) ↔ x.status = s := by
  cases x
  simp [Lead.mk.injEq, eq_comm]

/-- The lead-status update returns the updated leads list as post-state. -/
theorem update_lead_status_snd (lead_id status : String) (db : DB) :
    (update_lead_status lead_id status db).2 =
      { db with leads := (updateOne (fun l => l.id == lead_id)
          (fun l => { l with status := status }) db.leads).1 } := by
  rw [update_lead_status]
  split <;> rfl

/-- The status-update endpoint never touches the other collections and
rewrites only the `status` field, so the list of lead ids is unchanged. -/
theorem update_lead_status_map_id (lead_id status : String) (db : DB) :
    ((update_lead_status lead_id status db).2.leads.map Lead.id) =
      db.leads.map Lead.id := by
  rw [update_lead_status_snd]
  exact map_updateOne_fst (fun l => l.id == lead_id)
    (fun l => { l with status := status }) Lead.id (fun x => rfl) db.leads

/-- The startup hook never touches the leads collection. -/
theorem startup_event_leads (db : DB) : (startup_event db).leads = db.leads := by
  rw [startup_event]
  split <;> rfl

/-- The car update endpoint never touches the leads collection. -/
theorem update_car_leads (car_id : String) (car_data : Car) (db : DB) :
    (update_car car_id car_data db).2.leads = db.leads := by
  rw [update_car]
  split <;> rfl

/-- The car soft-delete endpoint never touches the leads collection. -/
theorem delete_car_leads (car_id : String) (db : DB) :
    (delete_car car_id db).2.leads = db.leads := by
  rw [delete_car]
  split <;> rfl

/-- The testimonial update endpoint never touches the leads collection. -/
theorem update_testimonial_leads (testimonial_id : String)
    (testimonial_data : Testimonial) (db : DB) :
    (update_testimonial testimonial_id testimonial_data db).2.leads = db.leads := by
  rw [update_testimonial]
  split <;> rfl

/-- The blog post update endpoint never touches the leads collection. -/
theorem update_blog_post_leads (post_id : String) (post_data : BlogPost) (db : DB) :
    (update_blog_post post_id post_data db).2.leads = db.leads := by
  rw [update_blog_post]
  split <;> rfl

/-- In a collection with pairwise-distinct ids, any member sharing the id of
the element exhibited by a split is that element. -/
theorem eq_of_split_of_nodup_id {l pre post : List Lead} {x y : Lead}
    (hsplit : l = pre ++ x :: post) (hnod : (l.map Lead.id).Nodup)
    (hy : y ∈ l) (hid : y.id = x.id) : y = x := by
  subst hsplit
  rw [List.map_append, List.map_cons] at hnod
  rcases List.mem_append.mp hy with hy' | hy'
  · exfalso
    have h1 : y.id ∈ pre.map Lead.id := List.mem_map_of_mem Lead.id hy'
    exact (List.nodup_append.mp hnod).2.2 h1
      (by rw [hid]; exact List.mem_cons_self x.id (post.map Lead.id))
  · rcases List.mem_cons.mp hy' with rfl | hy''
    · rfl
    · exfalso
      have h2 := (List.nodup_append.mp hnod).2.1
      rw [List.nodup_cons] at h2
      exact h2.1 (hid ▸ List.mem_map_of_mem Lead.id hy'')

/-- In a collection with pairwise-distinct ids, at most one document matches
an id filter. -/
theorem countP_id_le_one (lead_id : String) (l : List Lead)
    (hnod : (l.map Lead.id).Nodup) :
    l.countP (fun x => x.id == lead_id) ≤ 1 := by
  have h1 : l.countP (fun x => x.id == lead_id) = (l.map Lead.id).count lead_id := by
    rw [List.count_eq_countP, List.countP_map]
    rfl
  rw [h1]
  exact List.nodup_iff_count_le_one.mp hnod lead_id

/-- C4: for every valid submission, `POST /leads` returns a record whose id
is the freshly generated identifier, whose status is `"new"`, whose
`created_at` is the current timestamp, whose name, whatsapp, city, model and
source equal the submitted values unchanged, and whose id differs from every
existing lead's id; the very same record is appended to the collection. -/
theorem create_lead_spec (input : LeadCreate) (fid : String) (now : Nat)
    (db : DB) (hfresh : fid ∉ db.leads.map Lead.id) :
    (create_lead input fid now db).1.id = fid ∧
    (create_lead input fid now db).1.status = "new" ∧
    (create_lead input fid now db).1.created_at = now ∧
    (create_lead input fid now db).1.name = input.name ∧
    (create_lead input fid now db).1.whatsapp = input.whatsapp ∧
    (create_lead input fid now db).1.city = input.city ∧
    (create_lead input fid now db).1.model = input.model ∧
    (create_lead input fid now db).1.source = input.source ∧
    (create_lead input fid now db).2.leads
      = db.leads ++ [(create_lead input fid now db).1] ∧
    (∀ l ∈ db.leads, l.id ≠ (create_lead input fid now db).1.id) := by
  refine ⟨rfl, rfl, rfl, rfl, rfl, rfl, rfl, rfl, rfl, ?_⟩
  intro l hl heq
  have hid : l.id = fid := heq
  exact hfresh (hid ▸ List.mem_map_of_mem Lead.id hl)

/-- Witness for C4 at a concrete submission against the empty store. -/
theorem create_lead_spec_witness :
    ("lead-a" ∉ db_empty.leads.map Lead.id) ∧
    (create_lead formA "lead-a" 5 db_empty).1.status = "new" ∧
    (create_lead formA "lead-a" 5 db_empty).1.name = formA.name ∧
    (create_lead formA "lead-a" 5 db_empty).2.leads
      = db_empty.leads ++ [(create_lead formA "lead-a" 5 db_empty).1] :=
  ⟨by decide,
   (create_lead_spec formA "lead-a" 5 db_empty (by decide)).2.1,
   (create_lead_spec formA "lead-a" 5 db_empty (by decide)).2.2.2.1,
   (create_lead_spec formA "lead-a" 5 db_empty (by decide)).2.2.2.2.2.2.2.2.1⟩

/-- C6: the startup hook seeds the store only when the car collection is
empty; on a store whose car collection is non-empty it changes nothing at
all (cars, testimonials and blog posts included, even if those other
collections are empty), and on an empty car collection it appends exactly
the fixed seed lists. -/
theorem startup_seed_guard (db : DB) :
    (db.cars ≠ [] → startup_event db = db) ∧
    (db.cars = [] →
      (startup_event db).cars = db.cars ++ initial_cars ∧
      (startup_event db).testimonials = db.testimonials ++ initial_testimonials ∧
      (startup_event db).blog_posts = db.blog_posts ++ initial_blog_posts) := by
  constructor
  · intro h
    rw [startup_event, if_neg]
    simp only [beq_iff_eq, List.length_eq_zero]
    exact h
  · intro h
    rw [startup_event, if_pos (by simp [h])]
    exact ⟨rfl, rfl, rfl⟩

/-- Witness for C6: a store with one car (and empty testimonial and blog
collections) is left exactly unchanged by the startup hook. -/
theorem startup_seed_guard_witness : startup_event dbOneCar = dbOneCar :=
  (startup_seed_guard dbOneCar).1 (by decide)

/-- C7: for a car id matching no document, both `PUT /cars/{id}` and
`DELETE /cars/{id}` answer 404 and leave the whole store (in particular the
cars collection) exactly unchanged. -/
theorem car_not_found_spec (car_id : String) (car_data : Car) (db : DB)
    (h : ∀ c ∈ db.cars, c.id ≠ car_id) :
    (update_car car_id car_data db).1 = Except.error 404 ∧
    (update_car car_id car_data db).2 = db ∧
    (delete_car car_id db).1 = Except.error 404 ∧
    (delete_car car_id db).2 = db := by
  have hnm : ∀ c ∈ db.cars, ¬ (c.id == car_id) := by
    intro c hc
    simpa using h c hc
  have h1 := updateOne_no_match (fun c => c.id == car_id)
    (fun _ => car_data) db.cars hnm
  have h2 := updateOne_no_match (fun c => c.id == car_id)
    (fun c => { c with is_active := false }) db.cars hnm
  refine ⟨?_, ?_, ?_, ?_⟩ <;> simp [update_car, delete_car, h1, h2]

/-- Witness for C7 at a store holding one car and a foreign id. -/
theorem car_not_found_spec_witness :
    (update_car "car-zz" carA2 dbOneCar).1 = Except.error 404 ∧
    (update_car "car-zz" carA2 dbOneCar).2 = dbOneCar ∧
    (delete_car "car-zz" dbOneCar).1 = Except.error 404 ∧
    (delete_car "car-zz" dbOneCar).2 = dbOneCar :=
  car_not_found_spec "car-zz" carA2 dbOneCar (by decide)

/-- C10: `GET /blog/posts/{slug}` answers 404 exactly when no document with
that slug is published — an unpublished post yields the very same not-found
error as an absent slug — and any returned post is a stored document with
that slug and `is_published` true. -/
theorem blog_post_by_slug_spec (slug : String) (db : DB) :
    ((get_blog_post_by_slug slug db = Except.error 404) ↔
      ∀ p ∈ db.blog_posts, p.slug = slug → p.is_published = false) ∧
    (∀ p, get_blog_post_by_slug slug db = Except.ok p →
      p ∈ db.blog_posts ∧ p.slug = slug ∧ p.is_published = true) := by
  have hchar : ∀ p : BlogPost,
      ((p.slug == slug && p.is_published) = true) ↔
        (p.slug = slug ∧ p.is_published = true) := by
    intro p
    simp
  constructor
  · constructor
    · intro h p hp hslug
      rw [get_blog_post_by_slug] at h
      cases hfind : db.blog_posts.find? (fun q => q.slug == slug && q.is_published) with
      | some q => rw [hfind] at h; cases h
      | none =>
          have hnp := List.find?_eq_none.mp hfind p hp
          rw [hchar] at hnp
          cases hq : p.is_published
          · rfl
          · exact absurd ⟨hslug, hq⟩ hnp
    · intro hall
      rw [get_blog_post_by_slug,
        List.find?_eq_none.mpr (fun q hq hpred => ?_)]
      rw [hchar] at hpred
      have := hall q hq hpred.1
      rw [this] at hpred
      cases hpred.2
  · intro p h
    rw [get_blog_post_by_slug] at h
    cases hfind : db.blog_posts.find? (fun q => q.slug == slug && q.is_published) with
    | none => rw [hfind] at h; cases h
    | some q =>
        rw [hfind] at h
        cases h
        have hq := List.find?_some hfind
        rw [hchar] at hq
        exact ⟨List.mem_of_find?_eq_some hfind, hq.1, hq.2⟩

/-- Witness for C10: on a store whose only document with the slug exists but
is unpublished, the endpoint answers exactly the not-found error. -/
theorem blog_post_by_slug_spec_witness :
    get_blog_post_by_slug "guia-do-consorcio" dbUnpub = Except.error 404 :=
  (blog_post_by_slug_spec "guia-do-consorcio" dbUnpub).1.mpr (by decide)

/-- A successful full-payload `$set` replaces the first matching document by
the payload itself, leaving the rest of the collection untouched. -/
theorem updateOne_const_payload {α : Type} [DecidableEq α] (idOf : α → String)
    (doc_id : String) (payload : α) (l : List α)
    (h : (updateOne (fun x => idOf x == doc_id) (fun _ => payload) l).2 ≠ 0) :
    ∃ pre old post, l = pre ++ old :: post ∧ idOf old = doc_id ∧
      (updateOne (fun x => idOf x == doc_id) (fun _ => payload) l).1
        = pre ++ payload :: post := by
  obtain ⟨pre, x, post, hsplit, _, hx, _, hfst⟩ :=
    updateOne_success_split (fun x => idOf x == doc_id) (fun _ => payload) l h
  exact ⟨pre, x, post, hsplit, by simpa using hx, hfst⟩

/-- C9: a successful `PUT /cars/{id}`, `PUT /testimonials/{id}` or
`PUT /blog/posts/{id}` replaces every field of the matched document,
including its `id`, by the corresponding field of the payload: the stored
document after the update is the payload itself, with no field of the old
document surviving. -/
theorem full_replace_update_spec (doc_id : String) (car_data : Car)
    (testimonial_data : Testimonial) (post_data : BlogPost) (db : DB) :
    ((update_car doc_id car_data db).1.isOk = true →
      ∃ pre old post, db.cars = pre ++ old :: post ∧ old.id = doc_id ∧
        (update_car doc_id car_data db).2.cars = pre ++ car_data :: post) ∧
    ((update_testimonial doc_id testimonial_data db).1.isOk = true →
      ∃ pre old post, db.testimonials = pre ++ old :: post ∧ old.id = doc_id ∧
        (update_testimonial doc_id testimonial_data db).2.testimonials
          = pre ++ testimonial_data :: post) ∧
    ((update_blog_post doc_id post_data db).1.isOk = true →
      ∃ pre old post, db.blog_posts = pre ++ old :: post ∧ old.id = doc_id ∧
        (update_blog_post doc_id post_data db).2.blog_posts
          = pre ++ post_data :: post) := by
  refine ⟨fun hok => ?_, fun hok => ?_, fun hok => ?_⟩
  · have hnz : (updateOne (fun c => c.id == doc_id) (fun _ => car_data)
        db.cars).2 ≠ 0 := by
      intro h0
      rw [update_car] at hok
      simp [h0, Except.isOk, Except.toBool] at hok
    obtain ⟨pre, old, post, hsplit, hid, hfst⟩ :=
      updateOne_const_payload Car.id doc_id car_data db.cars hnz
    refine ⟨pre, old, post, hsplit, hid, ?_⟩
    rw [update_car]
    split
    · exact hfst
    · exact hfst
  · have hnz : (updateOne (fun t => t.id == doc_id) (fun _ => testimonial_data)
        db.testimonials).2 ≠ 0 := by
      intro h0
      rw [update_testimonial] at hok
      simp [h0, Except.isOk, Except.toBool] at hok
    obtain ⟨pre, old, post, hsplit, hid, hfst⟩ :=
      updateOne_const_payload Testimonial.id doc_id testimonial_data
        db.testimonials hnz
    refine ⟨pre, old, post, hsplit, hid, ?_⟩
    rw [update_testimonial]
    split
    · exact hfst
    · exact hfst
  · have hnz : (updateOne (fun p => p.id == doc_id) (fun _ => post_data)
        db.blog_posts).2 ≠ 0 := by
      intro h0
      rw [update_blog_post] at hok
      simp [h0, Except.isOk, Except.toBool] at hok
    obtain ⟨pre, old, post, hsplit, hid, hfst⟩ :=
      updateOne_const_payload BlogPost.id doc_id post_data db.blog_posts hnz
    refine ⟨pre, old, post, hsplit, hid, ?_⟩
    rw [update_blog_post]
    split
    · exact hfst
    · exact hfst

/-- Witness for C9: on the concrete catalog store, updating each collection
by id replaces the whole stored document with the payload. -/
theorem full_replace_update_spec_witness :
    (∃ pre old post, dbCatalog.cars = pre ++ old :: post ∧ old.id = "car-a" ∧
      (update_car "car-a" carA2 dbCatalog).2.cars = pre ++ carA2 :: post) ∧
    (∃ pre old post, dbCatalog.testimonials = pre ++ old :: post ∧
      old.id = "dep-a" ∧
      (update_testimonial "dep-a" testA2 dbCatalog).2.testimonials
        = pre ++ testA2 :: post) ∧
    (∃ pre old post, dbCatalog.blog_posts = pre ++ old :: post ∧
      old.id = "post-a" ∧
      (update_blog_post "post-a" postA2 dbCatalog).2.blog_posts
        = pre ++ postA2 :: post) :=
  ⟨(full_replace_update_spec "car-a" carA2 testA2 postA2 dbCatalog).1 (by decide),
   (full_replace_update_spec "dep-a" carA2 testA2 postA2 dbCatalog).2.1 (by decide),
   (full_replace_update_spec "post-a" carA2 testA2 postA2 dbCatalog).2.2 (by decide)⟩

/-- C1 (amended): in the `GET /leads/stats` response, `total` equals
`new + contacted + converted` whenever every stored lead's status is one of
the three enumerated values — the equality can fail on reachable states
because the status-update endpoint accepts arbitrary status strings — and
the `by_source` counts sum to `total` whenever the collection holds at most
100 distinct source values, the cap that `to_list(100)` puts on the
aggregation. -/
theorem lead_stats_spec (db : DB) :
    ((∀ l ∈ db.leads,
        l.status = "new" ∨ l.status = "contacted" ∨ l.status = "converted") →
      (get_lead_stats db).total
        = (get_lead_stats db).new + (get_lead_stats db).contacted
          + (get_lead_stats db).converted) ∧
    ((db.leads.map Lead.source).dedup.length ≤ 100 →
      ((get_lead_stats db).by_source.map Prod.snd).sum
        = (get_lead_stats db).total) := by
  constructor
  · intro h
    exact length_status_partition db.leads h
  · intro h
    have hl : ((db.leads.map Lead.source).dedup.map
        (fun s => (s, db.leads.countP (fun l => l.source == s)))).length ≤ 100 := by
      rw [List.length_map]
      exact h
    show (((((db.leads.map Lead.source).dedup.map
          (fun s => (s, db.leads.countP (fun l => l.source == s)))).take 100)).map
        Prod.snd).sum = db.leads.length
    rw [List.take_of_length_le hl]
    exact by_source_sum db.leads

/-- Witness for C1 at a concrete two-lead store with two distinct sources,
all statuses in the enumeration and fewer than 100 source groups. -/
theorem lead_stats_spec_witness :
    (get_lead_stats dbTwoLeads).total
        = (get_lead_stats dbTwoLeads).new + (get_lead_stats dbTwoLeads).contacted
          + (get_lead_stats dbTwoLeads).converted ∧
    ((get_lead_stats dbTwoLeads).by_source.map Prod.snd).sum
        = (get_lead_stats dbTwoLeads).total :=
  ⟨(lead_stats_spec dbTwoLeads).1 (by decide),
   (lead_stats_spec dbTwoLeads).2 (by decide)⟩

/-- Counterexample to C1 as stated: the state reached by creating a lead and
then updating its status to `"perdido"` through the API is reachable, yet
`total` differs from `new + contacted + converted` in the stats response. -/
theorem lead_stats_cex :
    Reachable dbOutside ∧
    (get_lead_stats dbOutside).total ≠
      (get_lead_stats dbOutside).new + (get_lead_stats dbOutside).contacted
        + (get_lead_stats dbOutside).converted := by
  constructor
  · exact Reachable.lead_status_updated "lead-a" "perdido"
      (Reachable.lead_created formA "lead-a" 5 (by decide) Reachable.init)
  · decide

/-- C2 (amended): with pairwise-distinct lead ids, `PUT /leads/{id}?status=`
answers 404 exactly when zero documents were modified — that is, when every
stored lead with the given id (there is at most one) already carries the
requested status, which covers both a missing id and a no-op update to the
current status — and in that failure case the store is left unchanged. -/
theorem update_status_not_found_spec (lead_id status : String) (db : DB)
    (hnod : (db.leads.map Lead.id).Nodup) :
    ((update_lead_status lead_id status db).1 = Except.error 404 ↔
      ∀ l ∈ db.leads, l.id = lead_id → l.status = status) ∧
    ((update_lead_status lead_id status db).1 = Except.error 404 →
      (update_lead_status lead_id status db).2 = db) := by
  have hu := countP_id_le_one lead_id db.leads hnod
  have hiff := updateOne_zero_iff_of_unique (fun l => l.id == lead_id)
    (fun l => { l with status := status }) db.leads hu
  have herr : (update_lead_status lead_id status db).1 = Except.error 404 ↔
      (updateOne (fun l => l.id == lead_id)
        (fun l => { l with status := status }) db.leads).2 = 0 := by
    rw [update_lead_status]
    split
    · rename_i hne
      constructor
      · intro h; cases h
      · intro h; exact absurd h hne
    · rename_i hz
      constructor
      · intro _; exact not_not.mp hz
      · intro _; rfl
  have hconv : (∀ x ∈ db.leads, (x.id == lead_id) →
        ({ x with status := status } : Lead) = x) ↔
      (∀ l ∈ db.leads, l.id = lead_id → l.status = status) := by
    constructor
    · intro hall l hl hid
      exact (lead_set_status_eq l status).mp (hall l hl (by simp [hid]))
    · intro hall x hx hid
      exact (lead_set_status_eq x status).mpr (hall x hx (by simpa using hid))
  refine ⟨herr.trans (hiff.trans hconv), ?_⟩
  intro h404
  have hz := herr.mp h404
  rw [update_lead_status_snd, updateOne_fst_of_zero _ _ _ hz]

/-- Witness for C2 on a concrete one-lead store and a missing id. -/
theorem update_status_not_found_spec_witness :
    ((update_lead_status "lead-zz" "contacted" dbOneLead).1 = Except.error 404 ↔
      ∀ l ∈ dbOneLead.leads, l.id = "lead-zz" → l.status = "contacted") ∧
    ((update_lead_status "lead-zz" "contacted" dbOneLead).1 = Except.error 404 →
      (update_lead_status "lead-zz" "contacted" dbOneLead).2 = dbOneLead) :=
  update_status_not_found_spec "lead-zz" "contacted" dbOneLead (by decide)

/-- Counterexample to C2 as stated: in the concrete one-lead store a record
does match the requested id, yet the endpoint answers the not-found error,
because re-asserting the current status modifies zero documents. -/
theorem update_status_not_found_cex :
    (∃ l ∈ dbOneLead.leads, l.id = "lead-a") ∧
    (update_lead_status "lead-a" "new" dbOneLead).1 = Except.error 404 :=
  ⟨by decide, rfl⟩

/-- C3 (amended): `GET /leads` returns the leads sorted by descending
`created_at`, truncated to the first 1000 documents; when the collection
holds at most 1000 leads — in particular after N ≤ 1000 creations — the
response is a permutation of the whole collection (exactly N records) in
descending `created_at` order. -/
theorem get_leads_spec (db : DB) (h : db.leads.length ≤ 1000) :
    List.Perm (get_leads db) db.leads ∧
    (get_leads db).Pairwise (fun a b => b.created_at ≤ a.created_at) := by
  have hlen : (sortByDesc Lead.created_at db.leads).length ≤ 1000 := by
    rw [(perm_sortByDesc Lead.created_at db.leads).length_eq]
    exact h
  rw [get_leads, List.take_of_length_le hlen]
  exact ⟨perm_sortByDesc Lead.created_at db.leads,
    pairwise_sortByDesc Lead.created_at db.leads⟩

/-- Witness for C3 on a concrete store of two leads created out of
descending order. -/
theorem get_leads_spec_witness :
    List.Perm (get_leads dbTwoLeads) dbTwoLeads.leads ∧
    (get_leads dbTwoLeads).Pairwise (fun a b => b.created_at ≤ a.created_at) :=
  get_leads_spec dbTwoLeads (by decide)

/-- Counterexample to C3 as stated: on a store of 1001 leads, `GET /leads`
does not return all leads — `to_list(1000)` truncates the response. -/
theorem get_leads_cex : (get_leads dbBulk).length ≠ dbBulk.leads.length := by
  have h1 : dbBulk.leads.length = 1001 := by
    simp only [dbBulk]
    rw [List.length_map, List.length_range]
  have h2 : (get_leads dbBulk).length = 1000 := by
    rw [get_leads, List.length_take,
      (perm_sortByDesc Lead.created_at dbBulk.leads).length_eq, h1]
    omega
  rw [h1, h2]
  omega

/-- C5 (amended): in every reachable state the lead ids are pairwise
distinct — they are server-generated fresh uuids, and no endpoint rewrites a
lead's id.  The claim's blanket uniqueness fails for the other collections:
`POST /cars`, `POST /testimonials` and `POST /blog/posts` insert the
client-supplied id without any uniqueness check. -/
theorem lead_ids_unique (db : DB) (h : Reachable db) :
    (db.leads.map Lead.id).Nodup := by
  induction h with
  | init => simp [db_empty]
  | startup _ ih =>
      rw [startup_event_leads]
      exact ih
  | @lead_created db input fid now hfresh _ ih =>
      have hmap : (create_lead input fid now db).2.leads.map Lead.id
          = db.leads.map Lead.id ++ [fid] := by
        simp [create_lead]
      rw [hmap]
      exact (List.nodup_cons.mpr ⟨hfresh, ih⟩).perm
        (List.perm_append_singleton fid (db.leads.map Lead.id)).symm
  | lead_status_updated lead_id status _ ih =>
      rw [update_lead_status_map_id]
      exact ih
  | car_created car_data _ ih => exact ih
  | car_updated car_id car_data _ ih =>
      rw [update_car_leads]
      exact ih
  | car_deleted car_id _ ih =>
      rw [delete_car_leads]
      exact ih
  | testimonial_created testimonial_data _ ih => exact ih
  | testimonial_updated testimonial_id testimonial_data _ ih =>
      rw [update_testimonial_leads]
      exact ih
  | blog_post_created post_data _ ih => exact ih
  | blog_post_updated post_id post_data _ ih =>
      rw [update_blog_post_leads]
      exact ih

/-- Witness for C5 on the concrete reachable two-lead state. -/
theorem lead_ids_unique_witness : (dbTwoLeads.leads.map Lead.id).Nodup :=
  lead_ids_unique dbTwoLeads
    (Reachable.lead_created formB "lead-b" 9 (by decide)
      (Reachable.lead_created formA "lead-a" 5 (by decide) Reachable.init))

/-- Counterexample to C5 as stated: posting the same client-supplied car
payload twice is a sequence of API operations, and it reaches a state whose
cars collection holds two documents with the same id. -/
theorem duplicate_ids_cex :
    Reachable dbDupCars ∧ ¬ (dbDupCars.cars.map Car.id).Nodup := by
  constructor
  · exact Reachable.car_created carA (Reachable.car_created carA Reachable.init)
  · decide

/-- C8 (amended): for every stored lead and every status string different
from the lead's current status — including values outside the
new/contacted/converted enumeration, which undergo no validation — the
status update succeeds, the record with the new status is stored, and
whenever the collection holds at most 1000 leads the new status appears on
that lead in a subsequent `GET /leads` response.  (A status string equal to
the current one modifies zero documents and is answered 404 instead.) -/
theorem update_status_any_value_spec (db : DB) (l : Lead) (status : String)
    (hmem : l ∈ db.leads) (hne : l.status ≠ status)
    (hnod : (db.leads.map Lead.id).Nodup) :
    (update_lead_status l.id status db).1
      = Except.ok "Lead updated successfully" ∧
    ({ l with status := status })
      ∈ (update_lead_status l.id status db).2.leads ∧
    (db.leads.length ≤ 1000 →
      ({ l with status := status })
        ∈ get_leads (update_lead_status l.id status db).2) := by
  have hu := countP_id_le_one l.id db.leads hnod
  have hnz : (updateOne (fun x => x.id == l.id)
      (fun x => { x with status := status }) db.leads).2 ≠ 0 := by
    intro h0
    have hall := (updateOne_zero_iff_of_unique _ _ _ hu).mp h0
    have := hall l hmem (by simp)
    exact hne ((lead_set_status_eq l status).mp this)
  have hfst : (update_lead_status l.id status db).1
      = Except.ok "Lead updated successfully" := by
    rw [update_lead_status]
    split
    · rfl
    · rename_i hz
      exact absurd (not_not.mp hz) hnz
  obtain ⟨pre, x, post, hsplit, hpre, hx, hfne, hupd⟩ :=
    updateOne_success_split (fun x => x.id == l.id)
      (fun x => { x with status := status }) db.leads hnz
  have hxid : x.id = l.id := by simpa using hx
  have hlx : l = x := eq_of_split_of_nodup_id hsplit hnod hmem hxid.symm
  subst hlx
  have hmem' : ({ l with status := status } : Lead)
      ∈ (update_lead_status l.id status db).2.leads := by
    rw [update_lead_status_snd]
    show ({ l with status := status } : Lead) ∈ (updateOne (fun x => x.id == l.id)
      (fun x => { x with status := status }) db.leads).1
    rw [hupd]
    exact List.mem_append_right pre (List.mem_cons_self _ _)
  refine ⟨hfst, hmem', fun hlen => ?_⟩
  have hlen' : (update_lead_status l.id status db).2.leads.length
      = db.leads.length := by
    rw [update_lead_status_snd]
    show (updateOne (fun x => x.id == l.id)
      (fun x => { x with status := status }) db.leads).1.length = _
    rw [hupd, hsplit]
    simp
  have hsorted_len : (sortByDesc Lead.created_at
      (update_lead_status l.id status db).2.leads).length ≤ 1000 := by
    rw [(perm_sortByDesc Lead.created_at _).length_eq, hlen']
    exact hlen
  rw [get_leads, List.take_of_length_le hsorted_len]
  exact (perm_sortByDesc Lead.created_at _).mem_iff.mpr hmem'

/-- Witness for C8: the stored lead's status is set to the unrecognized
value `"perdido"`, the call succeeds, and the updated record shows up in the
subsequent listing. -/
theorem update_status_any_value_spec_witness :
    (update_lead_status (create_lead formA "lead-a" 5 db_empty).1.id
        "perdido" dbOneLead).1 = Except.ok "Lead updated successfully" ∧
    ({ (create_lead formA "lead-a" 5 db_empty).1 with status := "perdido" })
      ∈ (update_lead_status (create_lead formA "lead-a" 5 db_empty).1.id
          "perdido" dbOneLead).2.leads ∧
    ({ (create_lead formA "lead-a" 5 db_empty).1 with status := "perdido" })
      ∈ get_leads (update_lead_status
          (create_lead formA "lead-a" 5 db_empty).1.id "perdido" dbOneLead).2 :=
  ⟨(update_status_any_value_spec dbOneLead
      (create_lead formA "lead-a" 5 db_empty).1 "perdido"
      (by decide) (by decide) (by decide)).1,
   (update_status_any_value_spec dbOneLead
      (create_lead formA "lead-a" 5 db_empty).1 "perdido"
      (by decide) (by decide) (by decide)).2.1,
   (update_status_any_value_spec dbOneLead
      (create_lead formA "lead-a" 5 db_empty).1 "perdido"
      (by decide) (by decide) (by decide)).2.2 (by decide)⟩

/-- Counterexample to C8 as stated: a stored lead exists with id `"lead-b"`
and status `"new"`, yet updating that existing lead to the status string
`"new"` does not succeed — it is answered with the 404 error, because zero
documents were modified. -/
theorem update_status_any_value_cex :
    (∃ l ∈ dbTwoLeads.leads, l.id = "lead-b" ∧ l.status = "new") ∧
    (update_lead_status "lead-b" "new" dbTwoLeads).1 = Except.error 404 :=
  ⟨by decide, rfl⟩
